import Mathlib

/-!
Verification development for the surrogate-generation core of a paleoclimate
time-series toolkit.  The Python classes `SurrogateSeries`
(`pyleoclim/core/surrogateseries.py`) and `EnsembleGeoSeries`
(`pyleoclim/core/ensemblegeoseries.py`) are shallowly embedded below.

Conventions of the embedding:
* numeric data (time coordinates, values, model parameters) is `ℚ`;
* the process-wide NumPy random generator is an explicit `RNG` state threaded
  through every call; `np.random.seed` replaces the state, while
  `np.random.default_rng` builds a fresh generator without touching the state;
* a Python method that can `raise` returns `Except String`; the pre-call object
  state is only replaced by a `.ok` result, so an error leaves all fields
  (in particular `series_list`) unchanged;
* emitted warnings are returned alongside the result as a `List String`.
-/

/-- Character-list test that `needle` is an initial segment of `hay`
(used to embed Python's substring operator). -/
def startsWithL : List Char → List Char → Bool
  | [], _ => true
  | _ :: _, [] => false
  | a :: as, b :: bs => a == b && startsWithL as bs

/-- Character-list substring containment, embedding Python's `needle in hay`
for strings. -/
def containsSub (needle : List Char) : List Char → Bool
  | [] => startsWithL needle []
  | b :: bs => startsWithL needle (b :: bs) || containsSub needle bs

/-- Running cumulative sum starting from accumulator `acc`
(embeds `np.cumsum`). -/
def cumsumFrom (acc : ℚ) : List ℚ → List ℚ
  | [] => []
  | x :: xs => (acc + x) :: cumsumFrom (acc + x) xs

/-- Cumulative sum of a list of rationals, embedding `np.cumsum`. -/
def cumsum (l : List ℚ) : List ℚ := cumsumFrom 0 l

/-- Consecutive differences of a list. -/
def diffsL : List ℚ → List ℚ
  | [] => []
  | [_] => []
  | a :: b :: rest => (b - a) :: diffsL (b :: rest)

/-- Modelled from the spec: the single-series entity exposes
`is_evenly_spaced()`, true when all consecutive time increments agree. -/
def is_evenly_spaced (t : List ℚ) : Bool :=
  match diffsL t with
  | [] => true
  | d :: ds => ds.all (· == d)

/-- Modelled from the spec: the process-wide NumPy random-generator state.
Draws are an abstract injective stream: drawing returns the current state as a
rational and advances the state. -/
structure RNG where
  state : Nat
deriving DecidableEq, Repr

/-- One draw from the process-wide generator. -/
def RNG.draw (r : RNG) : ℚ × RNG := ((r.state : ℚ), ⟨r.state + 1⟩)

/-- Modelled from the spec: `np.random.seed(s)` replaces the process-wide
generator state deterministically from the seed. -/
def npSeed (s : Nat) : RNG := ⟨2 * s + 1⟩

/-- Modelled from the spec (NumPy semantics): `np.random.default_rng(s)`
returns a fresh generator seeded from `s`; it does not modify the
process-wide state. -/
def default_rng (s : Nat) : RNG := ⟨2 * s + 1⟩

/-- Draw `n` successive values from the generator. -/
def drawN : Nat → RNG → List ℚ × RNG
  | 0, r => ([], r)
  | n + 1, r =>
    let q := drawN n (r.draw).2
    ((r.draw).1 :: q.1, q.2)

/-- Modelled from the spec: the single-series entity (`pyleoclim.Series`)
with its `time`, `value` and `label` fields; `copy()` is record update. -/
structure PSeries where
  time : List ℚ
  value : List ℚ
  label : Option String
deriving DecidableEq, Repr

/-- The `settings` dictionary recognized by `from_param`. -/
structure Settings where
  delta_t : Option ℚ
  delta_t_dist : Option String
  distParam : Option (List ℚ)
  timeAxis : Option (List ℚ)
deriving DecidableEq, Repr

/-- The fields of a `SurrogateSeries` object
(`series_list`, `method`, `param`, `number`, `seed`, `label`). -/
structure SurrState where
  series_list : List PSeries
  method : Option String
  param : Option (List ℚ)
  number : Nat
  seed : Option Nat
  label : Option String
deriving DecidableEq, Repr

/-- A member of an `EnsembleGeoSeries` collection: `isGeo` embeds
`isinstance(ts, GeoSeries)`, with the member's own coordinates. -/
structure GeoMember where
  isGeo : Bool
  lat : ℚ
  lon : ℚ
deriving DecidableEq, Repr

/-- The observable attributes of a constructed `EnsembleGeoSeries`:
`none` means the attribute was never assigned by `__init__`. -/
structure EnsembleGeoObj where
  series_list : List GeoMember
  lat : Option ℚ
  lon : Option ℚ
deriving DecidableEq, Repr

/-- Modelled from the spec: one column of the maximum-likelihood-consistent
AR(1) simulator `tsmodel.uar1_sim` (not under `src/`): each sample conditions
on the previous one and the elapsed interval, with an innovation drawn from
the process-wide generator.  `tau / (tau + dt)` is the rational surrogate for
the decay factor `exp(-dt/tau)`. -/
def uar1_col (tau sigma2 : ℚ) : List ℚ → ℚ → ℚ → RNG → List ℚ × RNG
  | [], _, _, r => ([], r)
  | t :: rest, prev, tprev, r =>
    let e := (r.draw).1
    let r1 := (r.draw).2
    let x := (tau / (tau + (t - tprev))) * prev + sigma2 * e
    let q := uar1_col tau sigma2 rest x t r1
    (x :: q.1, q.2)

/-- Modelled from the spec: `tsmodel.uar1_sim` over a matrix of time columns,
simulating one AR(1) trajectory per column in order, threading the
process-wide generator. -/
def simColumns (tau sigma2 : ℚ) : List (List ℚ) → RNG → List (List ℚ) × RNG
  | [], r => ([], r)
  | t :: ts, r =>
    let p := uar1_col tau sigma2 t 0 0 r
    let q := simColumns tau sigma2 ts p.2
    (p.1 :: q.1, q.2)

/-- Modelled from the spec: the method-of-moments fit used inside
`tsmodel.ar1_sim` — a persistence time and a moment-based innovation
variance estimated from the values. -/
def mom_fit (value : List ℚ) : ℚ × ℚ :=
  (1, (value.map (fun v => v * v)).sum / ((value.length : ℚ) + 1))

/-- Modelled from the spec: `tsmodel.ar1_sim(value, number, time)` (not under
`src/`) — method-of-moments AR(1) simulation producing `number` trajectories
at the given time points. -/
def ar1_sim (value : List ℚ) (number : Nat) (time : List ℚ) (r : RNG) :
    List (List ℚ) × RNG :=
  let fit := mom_fit value
  simColumns fit.1 fit.2 (List.replicate number time) r

/-- Modelled from the spec: `tsmodel.uar1_fit(value, time)` (not under
`src/`) — the maximum-likelihood estimate of `(tau, sigma_2)`, abstracted to
a data-dependent pair with `tau > 0` and `sigma_2 ≥ 0`. -/
def uar1_fit (value : List ℚ) (time : List ℚ) : ℚ × ℚ :=
  (1 + (time.map (fun t => abs t)).sum / ((time.length : ℚ) + 1),
   (value.map (fun v => v * v)).sum / ((value.length : ℚ) + 1))

/-- Modelled from the spec: `tsutils.phaseran2(value, number)` (not under
`src/`) — `number` phase-randomized replicas of the value sequence, each the
same length as the input, each consuming an independent draw from the
process-wide generator (the spectral mathematics is abstracted). -/
def phaseran2 (value : List ℚ) : Nat → RNG → List (List ℚ) × RNG
  | 0, r => ([], r)
  | n + 1, r =>
    let c := value.map (fun v => v + (r.draw).1)
    let q := phaseran2 value n (r.draw).2
    (c :: q.1, q.2)

/-- Modelled from the spec: `tsmodel.random_time_index(length, dist, param)`
(not under `src/`) — the cumulative sum of `length` positive increments drawn
from the named distribution, scaled by its first parameter. -/
def random_time_index (length : Nat) (dist_name : String) (dist_param : List ℚ)
    (r : RNG) : List ℚ × RNG :=
  let scale := dist_param.headD 1
  let q := drawN length r
  let _ := dist_name
  (cumsum (q.1.map (fun e => scale * (e + 1))), q.2)

/-- The `for i in range(self.number)` loop of `from_param` for
`time_pattern='random'`: one independently drawn time column per
realization, in order. -/
def randomTimes (length : Nat) (dn : String) (dp : List ℚ) :
    Nat → RNG → List (List ℚ) × RNG
  | 0, r => ([], r)
  | n + 1, r =>
    let p := random_time_index length dn dp r
    let q := randomTimes length dn dp n p.2
    (p.1 :: q.1, q.2)

/-- The message of the `ValueError` raised at label-derivation time for an
unrecognized method (`surrogateseries.py` line 75). -/
def unknownMethodMsg (m : Option String) : String :=
  "Unknown method: " ++ (match m with | some s => s | none => "None") ++
    ". Please use one of ar1sim, phaseran, uar1"

/-- `SurrogateSeries.__init__` (`surrogateseries.py` lines 23-75): field
assignment, parameter-count validation, then label derivation.  Returns the
constructed state together with the warnings emitted, or the raised error. -/
def SurrogateSeries.init (series_list : List PSeries) (number : Nat)
    (method : Option String) (label : Option String)
    (param : Option (List ℚ)) (seed : Option Nat) :
    Except String (SurrState × List String) :=
  let st : SurrState := ⟨series_list, method, param, number, seed, label⟩
  let checkE : Except String (List String) :=
    match param with
    | none => .ok []
    | some p =>
      let nparam := p.length
      match method with
      | none => .error "TypeError: argument of type NoneType is not iterable"
      | some m =>
        if containsSub "ar1".data m.data && nparam != 2 then
          .error "2 parameters are needed for this model"
        else if m == "phaseran" then
          .ok ["Phase-randomization is a non parametric method; the provided parameters will be ignored"]
        else if (m == "fBm" || m == "CN") && nparam > 1 then
          .error ("1 parameter is needed for this model; only the first of the provided "
            ++ toString nparam ++ " will be used")
        else .ok []
  match checkE with
  | .error e => .error e
  | .ok warns =>
    match label with
    | some _ => .ok (st, warns)
    | none =>
      if method = some "ar1sim" then
        .ok ({ st with label := some "AR(1) surrogates (MoM)" }, warns)
      else if method = some "phaseran" then
        .ok ({ st with label := some "phase-randomized surrogates" }, warns)
      else if method = some "uar1" then
        .ok ({ st with label := some "AR(1) surrogates (MLE)" }, warns)
      else
        .error (unknownMethodMsg method)

/-- The method-dispatch block of `from_series` (`surrogateseries.py` lines
120-137): the produced value columns, the generator state after sampling, and
the `param` field after the call (`uar1` overwrites it with the fitted pair). -/
def simBranch (st : SurrState) (target : PSeries) (rng : RNG) :
    Except String (List (List ℚ) × RNG × Option (List ℚ)) :=
  if st.method = some "ar1sim" then
    let p := ar1_sim target.value st.number target.time rng
    .ok (p.1, p.2, st.param)
  else if st.method = some "phaseran" then
    if is_evenly_spaced target.time then
      let p := phaseran2 target.value st.number rng
      .ok (p.1, p.2, st.param)
    else
      .error "Phase-randomization presently requires evenly-spaced series."
  else if st.method = some "uar1" then
    let fit := uar1_fit target.value target.time
    let p := simColumns fit.1 fit.2 (List.replicate st.number target.time) rng
    .ok (p.1, p.2, some [fit.1, fit.2])
  else
    .error "NameError: name y_surr is not defined"

/-- The `number > 1` labeling loop of `from_series` (`surrogateseries.py`
lines 140-145): each column becomes a copy of the target with the value
replaced and the label suffixed with the 1-based index. -/
def labelLoop (target : PSeries) : Nat → List (List ℚ) → List PSeries
  | _, [] => []
  | i, y :: rest =>
    { target with value := y,
                  label := some ((target.label.getD "") ++ " surr #" ++ toString (i + 1)) }
      :: labelLoop target (i + 1) rest

/-- `SurrogateSeries.from_series` (`surrogateseries.py` lines 77-152).  The
`isinstance(target_series, Series)` check holds by typing.  Note line 118
(`np.random.default_rng(self.seed)`): the fresh generator is built and
immediately discarded, so the process-wide state used for sampling is the
incoming one. -/
def from_series (st : SurrState) (target : PSeries) (rng : RNG) :
    Except String (SurrState × RNG) :=
  let _ := st.seed.map default_rng
  match simBranch st target rng with
  | .error e => .error e
  | .ok (cols, r, newParam) =>
    let s_list :=
      if st.number > 1 then
        labelLoop target 0 cols
      else
        [{ target with value := cols.headD [],
                       label := some ((target.label.getD "") ++ " surr") }]
    .ok ({ st with series_list := s_list, param := newParam }, r)

/-- The `for i, (t, y) in enumerate(zip(times.T, y_surr.T))` loop of
`from_param` (`surrogateseries.py` lines 237-242). -/
def mkSList (lbl : String) : Nat → List (List ℚ × List ℚ) → List PSeries
  | _, [] => []
  | i, (t, y) :: rest =>
    ⟨t, y, some (lbl ++ " surr #" ++ toString (i + 1))⟩ :: mkSList lbl (i + 1) rest

/-- The time-axis generation block of `from_param` (`surrogateseries.py`
lines 205-222), producing the matrix of time columns or the raised error. -/
def genTimes (number : Nat) (length : Nat) (time_pattern : String)
    (settings : Settings) (rng : RNG) :
    Except String (List (List ℚ) × RNG) :=
  if time_pattern = "even" then
    let delta_t := settings.delta_t.getD 1
    let t := cumsum (List.replicate length delta_t)
    .ok (List.replicate number t, rng)
  else if time_pattern = "random" then
    let dn := settings.delta_t_dist.getD "exponential"
    let dp := settings.distParam.getD [1]
    .ok (randomTimes length dn dp number rng)
  else if time_pattern = "specified" then
    match settings.timeAxis with
    | none => .error "time not found in settings"
    | some t => .ok (List.replicate number t, rng)
  else
    .error ("Unknown time pattern: " ++ time_pattern)

/-- The leniency warning emitted when the AR family receives fewer than two
parameters (`surrogateseries.py` line 229). -/
def arWarnMsg (nparam : Nat) : String :=
  "The AR(1) model needs 2 parameters, tau and sigma2 (in that order); "
    ++ toString nparam ++ " provided. default values used, tau=5, sigma=0.5"

/-- The default `Settings` (empty dictionary). -/
def emptySettings : Settings := ⟨none, none, none, none⟩

/-- The `np.random.seed(self.seed)` guard of `from_param`
(`surrogateseries.py` lines 202-203): a supplied seed replaces the
process-wide generator state, otherwise the incoming state is kept. -/
def seedRng (seed : Option Nat) (rng0 : RNG) : RNG :=
  match seed with
  | some s => npSeed s
  | none => rng0

/-- `SurrogateSeries.from_param` (`surrogateseries.py` lines 154-244).
`np.empty_like` for an unhandled method is modelled as zero columns.  Returns
the new object state, the generator state, and the warnings emitted; an error
result leaves the pre-call state untouched. -/
def from_param (st : SurrState) (paramArg : Option (List ℚ)) (length : Nat)
    (time_pattern : String) (settingsArg : Option Settings) (rng0 : RNG) :
    Except String (SurrState × RNG × List String) :=
  let param := paramArg.getD []
  let nparam := param.length
  let settings := settingsArg.getD emptySettings
  let rng := seedRng st.seed rng0
  match genTimes st.number length time_pattern settings rng with
  | .error e => .error e
  | .ok tr =>
    let times := tr.1
    let rng1 := tr.2
    if st.method = some "uar1" ∨ st.method = some "ar1sim" then
      let pw : List ℚ × List String :=
        if nparam < 2 then ([5, 1/2], [arWarnMsg nparam]) else (param, [])
      let q := simColumns (pw.1.getD 0 0) (pw.1.getD 1 0) times rng1
      .ok ({ st with series_list := mkSList (st.label.getD "") 0 (times.zip q.1) },
           q.2, pw.2)
    else if st.method = some "phaseran" then
      .error "Phase-randomization is only available in from_series()."
    else
      let ycols := times.map (fun t => t.map (fun _ => (0 : ℚ)))
      .ok ({ st with series_list := mkSList (st.label.getD "") 0 (times.zip ycols) },
           rng1, [])

/-- Time-axis generation succeeds for these pattern/settings combinations. -/
def timeOk (time_pattern : String) (settings : Settings) : Bool :=
  time_pattern == "even" || time_pattern == "random" ||
    (time_pattern == "specified" && settings.timeAxis.isSome)

/-- `EnsembleGeoSeries.__init__` (`ensemblegeoseries.py` lines 83-111),
restricted to the coordinate logic the claims are about.  In the source the
out-of-range branches build `ValueError(...)` without `raise`, so they fall
through and simply leave the attribute unassigned (`none` here). -/
def EnsembleGeoSeries.init (series_list : List GeoMember)
    (lat lon : Option ℚ) : Except String EnsembleGeoObj :=
  match lat with
  | none =>
    if series_list.all (fun m => m.isGeo) then
      match series_list with
      | [] => .error "IndexError: list index out of range"
      | m :: _ => .ok ⟨series_list, some m.lat, none⟩
    else
      .error "If lat is not passed, all components must be GeoSeries objects"
  | some latv =>
    match lon with
    | none =>
      if series_list.all (fun m => m.isGeo) then
        match series_list with
        | [] => .error "IndexError: list index out of range"
        | m :: _ => .ok ⟨series_list, none, some m.lon⟩
      else
        .error "If lon is not passed, all components must be GeoSeries objects"
    | some lonv =>
      let latA := if -90 ≤ latv ∧ latv ≤ 90 then some latv else none
      let lonA := if -180 < lonv ∧ lonv ≤ 360 then some lonv else none
      .ok ⟨series_list, latA, lonA⟩

/-- Cumulative sum of a constant step, starting from an accumulator. -/
lemma cumsumFrom_replicate (d : ℚ) :
    ∀ (n : Nat) (a : ℚ),
      cumsumFrom a (List.replicate n d)
        = (List.range n).map (fun k : ℕ => a + ((k : ℚ) + 1) * d) := by
  intro n
  induction n with
  | zero => intro a; simp [cumsumFrom]
  | succ m ih =>
    intro a
    rw [List.replicate_succ, List.range_succ_eq_map]
    simp only [cumsumFrom, List.map_cons, List.map_map]
    congr 1
    · push_cast
      ring
    · rw [ih (a + d)]
      congr 1
      funext k
      simp only [Function.comp]
      push_cast
      ring

/-- Cumulative sum of `n` copies of `d` is the arithmetic ramp `d, 2d, …`. -/
lemma cumsum_replicate (d : ℚ) (n : Nat) :
    cumsum (List.replicate n d) = (List.range n).map (fun k : ℕ => ((k : ℚ) + 1) * d) := by
  rw [cumsum, cumsumFrom_replicate]
  congr 1
  funext k
  ring

lemma mkSList_length (lbl : String) :
    ∀ (i : Nat) (l : List (List ℚ × List ℚ)), (mkSList lbl i l).length = l.length := by
  intro i l
  induction l generalizing i with
  | nil => simp [mkSList]
  | cons q rest ih =>
    obtain ⟨t, y⟩ := q
    simp [mkSList, ih]

lemma mkSList_mem (lbl : String) :
    ∀ (i : Nat) (l : List (List ℚ × List ℚ)) (s : PSeries), s ∈ mkSList lbl i l →
      ∃ q ∈ l, s.time = q.1 ∧ s.value = q.2 := by
  intro i l
  induction l generalizing i with
  | nil => intro s hs; simp [mkSList] at hs
  | cons q rest ih =>
    obtain ⟨t, y⟩ := q
    intro s hs
    rw [mkSList, List.mem_cons] at hs
    rcases hs with h | h
    · exact ⟨(t, y), List.mem_cons_self _ _, by rw [h], by rw [h]⟩
    · obtain ⟨q2, hq2, hts, hvs⟩ := ih (i + 1) s h
      exact ⟨q2, List.mem_cons_of_mem _ hq2, hts, hvs⟩

lemma mkSList_map_tv (lbl : String) :
    ∀ (i : Nat) (l : List (List ℚ × List ℚ)),
      (mkSList lbl i l).map (fun s => (s.time, s.value)) = l := by
  intro i l
  induction l generalizing i with
  | nil => simp [mkSList]
  | cons q rest ih =>
    obtain ⟨t, y⟩ := q
    simp [mkSList, ih]

lemma labelLoop_length (target : PSeries) :
    ∀ (i : Nat) (cols : List (List ℚ)), (labelLoop target i cols).length = cols.length := by
  intro i cols
  induction cols generalizing i with
  | nil => simp [labelLoop]
  | cons y rest ih => simp [labelLoop, ih]

lemma labelLoop_mem (target : PSeries) :
    ∀ (i : Nat) (cols : List (List ℚ)) (s : PSeries), s ∈ labelLoop target i cols →
      s.time = target.time ∧ s.value ∈ cols := by
  intro i cols
  induction cols generalizing i with
  | nil => intro s hs; simp [labelLoop] at hs
  | cons y rest ih =>
    intro s hs
    simp only [labelLoop, List.mem_cons] at hs
    rcases hs with h | h
    · subst h
      exact ⟨rfl, List.mem_cons_self _ _⟩
    · obtain ⟨hts, hvs⟩ := ih (i + 1) s h
      exact ⟨hts, List.mem_cons_of_mem _ hvs⟩

lemma labelLoop_get (target : PSeries) :
    ∀ (cols : List (List ℚ)) (i j : Nat) (hj : j < (labelLoop target i cols).length),
      ((labelLoop target i cols).get ⟨j, hj⟩).label
        = some ((target.label.getD "") ++ " surr #" ++ toString (i + j + 1)) := by
  intro cols
  induction cols with
  | nil => intro i j hj; simp [labelLoop] at hj
  | cons y rest ih =>
    intro i j hj
    cases j with
    | zero => simp [labelLoop]
    | succ k =>
      simp only [labelLoop, List.get_cons_succ]
      rw [ih (i + 1) k]
      have he : i + 1 + k + 1 = i + (k + 1) + 1 := by omega
      rw [he]

lemma uar1_col_length (tau s2 : ℚ) :
    ∀ (ts : List ℚ) (prev tprev : ℚ) (r : RNG),
      ((uar1_col tau s2 ts prev tprev r).1).length = ts.length := by
  intro ts
  induction ts with
  | nil => intro prev tprev r; simp [uar1_col]
  | cons t rest ih => intro prev tprev r; simp [uar1_col, ih]

lemma simColumns_length (tau s2 : ℚ) :
    ∀ (ts : List (List ℚ)) (r : RNG), ((simColumns tau s2 ts r).1).length = ts.length := by
  intro ts
  induction ts with
  | nil => intro r; simp [simColumns]
  | cons t rest ih => intro r; simp [simColumns, ih]

lemma simColumns_mem (tau s2 : ℚ) :
    ∀ (ts : List (List ℚ)) (r : RNG) (c : List ℚ), c ∈ (simColumns tau s2 ts r).1 →
      ∃ t ∈ ts, c.length = t.length := by
  intro ts
  induction ts with
  | nil => intro r c hc; simp [simColumns] at hc
  | cons t rest ih =>
    intro r c hc
    rw [simColumns, List.mem_cons] at hc
    rcases hc with h | h
    · exact ⟨t, List.mem_cons_self _ _, by rw [h, uar1_col_length]⟩
    · obtain ⟨t2, ht2, hl⟩ := ih _ c h
      exact ⟨t2, List.mem_cons_of_mem _ ht2, hl⟩

lemma phaseran2_length (value : List ℚ) :
    ∀ (n : Nat) (r : RNG), ((phaseran2 value n r).1).length = n := by
  intro n
  induction n with
  | zero => intro r; simp [phaseran2]
  | succ m ih => intro r; simp [phaseran2, ih]

lemma phaseran2_mem (value : List ℚ) :
    ∀ (n : Nat) (r : RNG) (c : List ℚ), c ∈ (phaseran2 value n r).1 →
      c.length = value.length := by
  intro n
  induction n with
  | zero => intro r c hc; simp [phaseran2] at hc
  | succ m ih =>
    intro r c hc
    rw [phaseran2, List.mem_cons] at hc
    rcases hc with h | h
    · rw [h, List.length_map]
    · exact ih _ c h

/-- Evaluation of the time-axis generator for the `even` pattern. -/
lemma genTimes_even (n len : Nat) (s : Settings) (r : RNG) :
    genTimes n len "even" s r
      = .ok (List.replicate n (cumsum (List.replicate len (s.delta_t.getD 1))), r) := rfl

/-- Patterns accepted by `timeOk` make time-axis generation succeed. -/
lemma genTimes_timeOk (n len : Nat) (tp : String) (s : Settings) (r : RNG)
    (h : timeOk tp s = true) :
    ∃ q, genTimes n len tp s r = .ok q := by
  simp only [timeOk, Bool.or_eq_true, Bool.and_eq_true, beq_iff_eq,
    Option.isSome_iff_exists] at h
  rcases h with (h | h) | ⟨h, t, ht⟩
  · subst h; exact ⟨_, rfl⟩
  · subst h; exact ⟨_, rfl⟩
  · subst h
    refine ⟨(List.replicate n t, r), ?_⟩
    simp +decide [genTimes, ht]

/-- The dispatch block of `from_series` produces `number` columns, each as
long as the target (given the Series length invariant). -/
lemma simBranch_ok (st : SurrState) (target : PSeries) (rng : RNG)
    (cols : List (List ℚ)) (r : RNG) (np : Option (List ℚ))
    (htv : target.time.length = target.value.length)
    (h : simBranch st target rng = .ok (cols, r, np)) :
    cols.length = st.number ∧ ∀ c ∈ cols, c.length = target.value.length := by
  unfold simBranch at h
  by_cases h1 : st.method = some "ar1sim"
  · rw [if_pos h1] at h
    simp only [Except.ok.injEq, Prod.mk.injEq] at h
    obtain ⟨hc, -, -⟩ := h
    subst hc
    simp only [ar1_sim]
    refine ⟨by rw [simColumns_length, List.length_replicate], ?_⟩
    intro c hc
    obtain ⟨t, ht, hl⟩ := simColumns_mem _ _ _ _ c hc
    rw [hl, List.eq_of_mem_replicate ht, htv]
  · rw [if_neg h1] at h
    by_cases h2 : st.method = some "phaseran"
    · rw [if_pos h2] at h
      by_cases h3 : is_evenly_spaced target.time = true
      · rw [if_pos h3] at h
        simp only [Except.ok.injEq, Prod.mk.injEq] at h
        obtain ⟨hc, -, -⟩ := h
        subst hc
        exact ⟨phaseran2_length _ _ _, fun c hc => phaseran2_mem _ _ _ c hc⟩
      · rw [if_neg h3] at h
        exact absurd h (by simp)
    · rw [if_neg h2] at h
      by_cases h4 : st.method = some "uar1"
      · rw [if_pos h4] at h
        simp only [Except.ok.injEq, Prod.mk.injEq] at h
        obtain ⟨hc, -, -⟩ := h
        subst hc
        refine ⟨by rw [simColumns_length, List.length_replicate], ?_⟩
        intro c hc
        obtain ⟨t, ht, hl⟩ := simColumns_mem _ _ _ _ c hc
        rw [hl, List.eq_of_mem_replicate ht, htv]
      · rw [if_neg h4] at h
        exact absurd h (by simp)

/-- C1: `EnsembleGeoSeries.__init__` with explicit out-of-range coordinates
does NOT fail: the source builds `ValueError(...)` without `raise`, so
construction succeeds and the out-of-range attribute is silently left
unassigned, while in-range values are carried in `lat`/`lon`.  At lat=100
(outside [-90, 90]) and lon=50 the object is built with no `lat` attribute;
at lat=200, lon=400 both attributes are missing; at lat=10, lon=20 both are
stored. -/
theorem geo_init_out_of_range_coordinates_never_raise :
    EnsembleGeoSeries.init [⟨true, 0, 0⟩] (some 100) (some 50)
      = .ok ⟨[⟨true, 0, 0⟩], none, some 50⟩ ∧
    EnsembleGeoSeries.init [⟨true, 0, 0⟩] (some 200) (some 400)
      = .ok ⟨[⟨true, 0, 0⟩], none, none⟩ ∧
    EnsembleGeoSeries.init [⟨true, 0, 0⟩] (some 10) (some 20)
      = .ok ⟨[⟨true, 0, 0⟩], some 10, some 20⟩ := by
  refine ⟨?_, ?_, ?_⟩ <;> norm_num [EnsembleGeoSeries.init]

/-- C10: with `lat` omitted and every member a `GeoSeries`, the constructor
copies `lat` from the first member only and never assigns `lon` (whatever
`lon` argument was passed); with `lat` supplied and `lon` omitted it copies
`lon` from the first member only and never stores the supplied `lat`. -/
theorem geo_init_partial_coordinates_copied_from_first_member
    (m : GeoMember) (rest : List GeoMember) (lonArg : Option ℚ) (latv : ℚ)
    (hall : (m :: rest).all (fun g => g.isGeo) = true) :
    EnsembleGeoSeries.init (m :: rest) none lonArg = .ok ⟨m :: rest, some m.lat, none⟩ ∧
    EnsembleGeoSeries.init (m :: rest) (some latv) none = .ok ⟨m :: rest, none, some m.lon⟩ := by
  refine ⟨?_, ?_⟩ <;> simp [EnsembleGeoSeries.init, hall]

/-- Witness for C10 at a concrete one-member collection. -/
theorem geo_init_partial_coordinates_copied_witness :
    EnsembleGeoSeries.init [⟨true, 3, 4⟩] none (some 50) = .ok ⟨[⟨true, 3, 4⟩], some 3, none⟩ ∧
    EnsembleGeoSeries.init [⟨true, 3, 4⟩] (some 7) none = .ok ⟨[⟨true, 3, 4⟩], none, some 4⟩ :=
  geo_init_partial_coordinates_copied_from_first_member ⟨true, 3, 4⟩ [] (some 50) 7 (by decide)

/-- C3 counterexample: an unrecognized method name is silently accepted when
an explicit label is supplied — `SurrogateSeries(method='foo', label='lbl')`
constructs successfully, refuting "the constructor raises ... for every
construction with a method outside the supported set". -/
theorem surrogate_init_unknown_method_with_label_accepted :
    SurrogateSeries.init [] 1 (some "foo") (some "lbl") none none
      = .ok (⟨[], some "foo", none, 1, none, some "lbl"⟩, []) := rfl

/-- C3 (amended): when no label is supplied (and no parameter list triggers an
earlier validation error), any method name outside
`{ar1sim, phaseran, uar1}` makes the constructor raise the error enumerating
the supported set at label-derivation time. -/
theorem surrogate_init_unknown_method_without_label_raises
    (sl : List PSeries) (n : Nat) (m : String) (seed : Option Nat)
    (h1 : m ≠ "ar1sim") (h2 : m ≠ "phaseran") (h3 : m ≠ "uar1") :
    SurrogateSeries.init sl n (some m) none none seed
      = .error (unknownMethodMsg (some m)) := by
  unfold SurrogateSeries.init
  simp [h1, h2, h3]

/-- Witness for the amended C3 at the concrete method name "foo". -/
theorem surrogate_init_unknown_method_without_label_witness :
    SurrogateSeries.init [] 1 (some "foo") none none none
      = .error (unknownMethodMsg (some "foo")) :=
  surrogate_init_unknown_method_without_label_raises [] 1 "foo" none
    (by decide) (by decide) (by decide)

/-- C4: a single-parameter model (`fBm`) with a two-element parameter list
does not warn and continue — the source raises `ValueError` (whose own
message says only the first parameter will be used), so construction fails. -/
theorem surrogate_init_single_param_model_excess_params_raises :
    SurrogateSeries.init [] 1 (some "fBm") none (some [1, 2]) none
      = .error "1 parameter is needed for this model; only the first of the provided 2 will be used" := by
  norm_num +decide [SurrogateSeries.init, containsSub, startsWithL]

/-- C2: the seed set at construction has no effect in `from_series` — line
118 builds `np.random.default_rng(self.seed)` and discards it, so sampling
uses the uncontrolled process-wide generator state.  Changing the seed (1 vs
999) from the same generator state changes nothing, while two calls with the
identical seed 42 from different generator states (as in two successive calls
of one process) give different surrogate values. -/
theorem from_series_seed_has_no_effect_on_sampling :
    ((from_series ⟨[], some "ar1sim", none, 1, some 1, some "x"⟩
        ⟨[1, 2, 3], [2, 0, 1], some "SOI"⟩ ⟨0⟩).map (fun p => (p.1.series_list, p.2))
      = (from_series ⟨[], some "ar1sim", none, 1, some 999, some "x"⟩
        ⟨[1, 2, 3], [2, 0, 1], some "SOI"⟩ ⟨0⟩).map (fun p => (p.1.series_list, p.2))) ∧
    (from_series ⟨[], some "ar1sim", none, 1, some 42, some "x"⟩
        ⟨[1, 2, 3], [2, 0, 1], some "SOI"⟩ ⟨0⟩).map
        (fun p => p.1.series_list.map (fun s => s.value))
      = .ok [[0, 5/4, 25/8]] ∧
    (from_series ⟨[], some "ar1sim", none, 1, some 42, some "x"⟩
        ⟨[1, 2, 3], [2, 0, 1], some "SOI"⟩ ⟨7⟩).map
        (fun p => p.1.series_list.map (fun s => s.value))
      = .ok [[35/4, 115/8, 295/16]] ∧
    ([[0, 5/4, 25/8]] : List (List ℚ)) ≠ [[35/4, 115/8, 295/16]] := by
  refine ⟨?_, ?_, ?_, ?_⟩ <;>
    norm_num +decide [from_series, simBranch, ar1_sim, mom_fit, simColumns, uar1_col,
      RNG.draw, labelLoop, Except.map]

/-- C5 counterexample: a `from_param` call with an AR method and a
one-element parameter list still fails outright (with no warning emitted)
when time-axis generation fails first — here with an unknown time pattern —
refuting "for every such call the engine warns and proceeds with defaults". -/
theorem from_param_short_ar_param_can_still_fail :
    from_param ⟨[], some "ar1sim", none, 1, none, some "x"⟩ (some [3]) 5 "bogus" none ⟨0⟩
      = .error "Unknown time pattern: bogus" := rfl

/-- C8: with `method='phaseran'`, `from_param` raises a `ValueError` for every
combination of parameters, length, time pattern and settings (either the
time-pattern error or the dedicated phase-randomization error); since the
object state is only replaced by an `.ok` result, `series_list` is left
unchanged. -/
theorem from_param_phaseran_always_errors
    (st : SurrState) (paramArg : Option (List ℚ)) (len : Nat) (tp : String)
    (settingsArg : Option Settings) (rng : RNG)
    (hm : st.method = some "phaseran") :
    ∃ msg, from_param st paramArg len tp settingsArg rng = .error msg := by
  unfold from_param
  cases hgen : genTimes st.number len tp (settingsArg.getD emptySettings)
      (seedRng st.seed rng) with
  | error e => exact ⟨e, by simp [hgen]⟩
  | ok tr =>
    refine ⟨"Phase-randomization is only available in from_series().", ?_⟩
    simp +decide [hgen, hm]

/-- Witness for C8 at a concrete phaseran builder. -/
theorem from_param_phaseran_always_errors_witness :
    ∃ msg, from_param ⟨[], some "phaseran", none, 1, none, some "x"⟩ none 5 "even" none ⟨0⟩
      = .error msg :=
  from_param_phaseran_always_errors ⟨[], some "phaseran", none, 1, none, some "x"⟩
    none 5 "even" none ⟨0⟩ rfl

/-- Projection of a builder state to the time and value columns of its
series collection (labels and other metadata dropped). -/
def seriesTV (st : SurrState) : List (List ℚ × List ℚ) :=
  st.series_list.map (fun s => (s.time, s.value))

/-- C9: `from_param` sends both AR variants through the same
maximum-likelihood-consistent simulator, so for identical parameters, length,
time pattern, settings and generator state, builders named `ar1sim` and
`uar1` produce identical time and value columns (and identical generator
state and warnings); only display labels can differ. -/
theorem from_param_ar_variants_produce_identical_columns
    (sl : List PSeries) (pm : Option (List ℚ)) (n : Nat) (seed : Option Nat)
    (lab1 lab2 : Option String) (paramArg : Option (List ℚ)) (len : Nat)
    (tp : String) (settingsArg : Option Settings) (rng : RNG) :
    (from_param ⟨sl, some "ar1sim", pm, n, seed, lab1⟩ paramArg len tp settingsArg rng).map
        (fun q => (seriesTV q.1, q.2))
      = (from_param ⟨sl, some "uar1", pm, n, seed, lab2⟩ paramArg len tp settingsArg rng).map
        (fun q => (seriesTV q.1, q.2)) := by
  unfold from_param
  cases hgen : genTimes n len tp (settingsArg.getD emptySettings) (seedRng seed rng) with
  | error e => simp [hgen]
  | ok tr => simp +decide [hgen, seriesTV, mkSList_map_tv, Except.map]

/-- C7: every series produced by a successful `from_param` call with
`time_pattern='even'` carries the time vector `delta_t, 2*delta_t, …,
length*delta_t` (the cumulative sum of the constant step, default 1.0),
identical across all realizations. -/
theorem from_param_even_pattern_time_axis
    (st : SurrState) (paramArg : Option (List ℚ)) (len : Nat)
    (settingsArg : Option Settings) (rng : RNG) (p : SurrState × RNG × List String)
    (h : from_param st paramArg len "even" settingsArg rng = .ok p) :
    ∀ s ∈ p.1.series_list,
      s.time = (List.range len).map
        (fun k : ℕ => ((k : ℚ) + 1) * ((settingsArg.getD emptySettings).delta_t.getD 1)) := by
  unfold from_param at h
  simp only [genTimes_even] at h
  by_cases hm1 : st.method = some "uar1" ∨ st.method = some "ar1sim"
  · rw [if_pos hm1] at h
    injection h with h
    subst h
    intro s hs
    simp only [seriesTV] at hs
    obtain ⟨q, hq, hts, -⟩ := mkSList_mem _ _ _ s hs
    have hq1 := (List.of_mem_zip hq).1
    have hrep := List.eq_of_mem_replicate hq1
    rw [hts, hrep, cumsum_replicate]
  · rw [if_neg hm1] at h
    by_cases hm2 : st.method = some "phaseran"
    · rw [if_pos hm2] at h
      exact absurd h (by simp)
    · rw [if_neg hm2] at h
      injection h with h
      subst h
      intro s hs
      obtain ⟨q, hq, hts, -⟩ := mkSList_mem _ _ _ s hs
      have hq1 := (List.of_mem_zip hq).1
      have hrep := List.eq_of_mem_replicate hq1
      rw [hts, hrep, cumsum_replicate]

/-- The labels produced by the `from_series` labeling loop are the 1-based
indexed suffixes, in order. -/
lemma labelLoop_labels (target : PSeries) :
    ∀ (i : Nat) (cols : List (List ℚ)),
      (labelLoop target i cols).map (fun s => s.label)
        = (List.range cols.length).map
            (fun j : ℕ => some ((target.label.getD "") ++ " surr #" ++ toString (i + j + 1))) := by
  intro i cols
  induction cols generalizing i with
  | nil => simp [labelLoop]
  | cons y rest ih =>
    simp only [labelLoop, List.map_cons, List.length_cons, List.range_succ_eq_map,
      List.map_map]
    congr 1
    rw [ih (i + 1)]
    congr 1
    funext j
    simp only [Function.comp]
    congr 3
    omega

/-- C6: a successful `from_series` call on a target of length `L` with
`number = N` sets `series_list` to exactly `N` series when `N > 1`, each of
length `L` at the target's own time points, labeled with the target's label
plus `" surr #1" … " surr #N"` in order; with `N = 1` it sets a single series
whose label carries the suffix `" surr"` with no index. -/
theorem from_series_collection_shape_and_labels
    (st : SurrState) (target : PSeries) (rng : RNG) (p : SurrState × RNG)
    (htv : target.time.length = target.value.length)
    (h : from_series st target rng = .ok p) :
    (st.number > 1 →
      p.1.series_list.length = st.number ∧
      (∀ s ∈ p.1.series_list, s.time = target.time ∧ s.value.length = target.value.length) ∧
      p.1.series_list.map (fun s => s.label)
        = (List.range st.number).map
            (fun j : ℕ => some ((target.label.getD "") ++ " surr #" ++ toString (j + 1)))) ∧
    (st.number = 1 →
      ∃ y, y.length = target.value.length ∧
        p.1.series_list
          = [{ target with value := y,
                           label := some ((target.label.getD "") ++ " surr") }]) := by
  unfold from_series at h
  cases hb : simBranch st target rng with
  | error e => rw [hb] at h; exact absurd h (by simp)
  | ok trip =>
    obtain ⟨cols, r, np⟩ := trip
    simp only [hb] at h
    have hlen := simBranch_ok st target rng cols r np htv hb
    injection h with h
    subst h
    constructor
    · intro hn
      dsimp only
      refine ⟨?_, ?_, ?_⟩
      · rw [if_pos hn, labelLoop_length, hlen.1]
      · intro s hs
        rw [if_pos hn] at hs
        obtain ⟨hts, hvs⟩ := labelLoop_mem _ _ _ s hs
        exact ⟨hts, hlen.2 _ hvs⟩
      · rw [if_pos hn, labelLoop_labels, hlen.1]
        congr 1
        funext j
        simp
    · intro hn1
      have hn : ¬ st.number > 1 := by omega
      refine ⟨cols.headD [], ?_, ?_⟩
      · obtain ⟨c, hc⟩ := List.length_eq_one.mp (by rw [hlen.1, hn1] : cols.length = 1)
        subst hc
        simpa using hlen.2 c (by simp)
      · dsimp only
        rw [if_neg hn]

/-- Witness for C6 at a concrete `ar1sim` builder with `number = 2`. -/
theorem from_series_collection_shape_and_labels_witness :
    ([⟨[1, 2, 3], [0, 5/4, 25/8], some "SOI surr #1"⟩,
      ⟨[1, 2, 3], [15/4, 55/8, 155/16], some "SOI surr #2"⟩] : List PSeries).length = 2 ∧
    (∀ s ∈ ([⟨[1, 2, 3], [0, 5/4, 25/8], some "SOI surr #1"⟩,
      ⟨[1, 2, 3], [15/4, 55/8, 155/16], some "SOI surr #2"⟩] : List PSeries),
        s.time = [1, 2, 3] ∧ s.value.length = 3) ∧
    ([⟨[1, 2, 3], [0, 5/4, 25/8], some "SOI surr #1"⟩,
      ⟨[1, 2, 3], [15/4, 55/8, 155/16], some "SOI surr #2"⟩] : List PSeries).map
        (fun s => s.label)
      = (List.range 2).map (fun j : ℕ => some ("SOI" ++ " surr #" ++ toString (j + 1))) :=
  (from_series_collection_shape_and_labels ⟨[], some "ar1sim", none, 2, none, some "x"⟩
      ⟨[1, 2, 3], [2, 0, 1], some "SOI"⟩ ⟨0⟩
      ({ series_list := [⟨[1, 2, 3], [0, 5/4, 25/8], some "SOI surr #1"⟩,
                         ⟨[1, 2, 3], [15/4, 55/8, 155/16], some "SOI surr #2"⟩],
         method := some "ar1sim", param := none, number := 2, seed := none,
         label := some "x" }, ⟨6⟩)
      (by decide)
      (by norm_num +decide [from_series, simBranch, ar1_sim, mom_fit, simColumns,
        uar1_col, RNG.draw, labelLoop])).1 (by decide)

/-- C5 (amended): whenever time-axis generation succeeds (valid
`time_pattern`/`settings`), a `from_param` call with an AR-family method and
fewer than two coerced parameters emits the leniency warning and proceeds
exactly as the same call with the substituted defaults `tau=5, sigma_2=0.5`
would, instead of failing. -/
theorem from_param_short_ar_param_warns_and_uses_defaults
    (st : SurrState) (paramArg : Option (List ℚ)) (len : Nat) (tp : String)
    (settingsArg : Option Settings) (rng : RNG)
    (hm : st.method = some "uar1" ∨ st.method = some "ar1sim")
    (hp : (paramArg.getD []).length < 2)
    (ht : timeOk tp (settingsArg.getD emptySettings) = true) :
    ∃ stp rng2,
      from_param st paramArg len tp settingsArg rng
        = .ok (stp, rng2, [arWarnMsg (paramArg.getD []).length]) ∧
      from_param st (some [5, 1/2]) len tp settingsArg rng = .ok (stp, rng2, []) := by
  obtain ⟨q, hgen⟩ := genTimes_timeOk st.number len tp (settingsArg.getD emptySettings)
    (seedRng st.seed rng) ht
  refine ⟨{ st with
      series_list := (mkSList (st.label.getD "") 0 (q.1.zip (simColumns 5 (1/2) q.1 q.2).1)) },
    (simColumns 5 (1/2) q.1 q.2).2, ?_, ?_⟩
  · unfold from_param
    simp only [hgen, if_pos hm, hp, if_true, List.getD_cons_zero, List.getD_cons_succ]
  · unfold from_param
    simp only [hgen, if_pos hm, List.length_cons, List.length_nil,
      List.getD_cons_zero, List.getD_cons_succ]
    norm_num

/-- Witness for the amended C5 at a concrete `ar1sim` builder with a
one-element parameter list and an even time pattern. -/
theorem from_param_short_ar_param_warns_witness :
    ∃ stp rng2,
      from_param ⟨[], some "ar1sim", none, 1, none, some "x"⟩ (some [3]) 2 "even" none ⟨0⟩
        = .ok (stp, rng2, [arWarnMsg 1]) ∧
      from_param ⟨[], some "ar1sim", none, 1, none, some "x"⟩ (some [5, 1/2]) 2 "even" none ⟨0⟩
        = .ok (stp, rng2, []) :=
  from_param_short_ar_param_warns_and_uses_defaults
    ⟨[], some "ar1sim", none, 1, none, some "x"⟩ (some [3]) 2 "even" none ⟨0⟩
    (Or.inr rfl) (by decide) (by decide)

/-- Witness for C7: in a concrete `from_param` run with `time_pattern='even'`,
`length=3`, `delta_t=2` and `number=2`, the first produced series carries the
time vector `[2, 4, 6]`, i.e. the ramp `delta_t, 2*delta_t, 3*delta_t`. -/
theorem from_param_even_pattern_time_axis_witness :
    (⟨[2, 4, 6], [0, 0, 0], some "lbl surr #1"⟩ : PSeries).time
      = (List.range 3).map
        (fun k : ℕ => ((k : ℚ) + 1)
          * (((some (⟨some 2, none, none, none⟩ : Settings)).getD emptySettings).delta_t.getD 1)) :=
  from_param_even_pattern_time_axis ⟨[], some "fBm", none, 2, none, some "lbl"⟩ none 3
    (some ⟨some 2, none, none, none⟩) ⟨0⟩
    ({ series_list := [⟨[2, 4, 6], [0, 0, 0], some "lbl surr #1"⟩,
                       ⟨[2, 4, 6], [0, 0, 0], some "lbl surr #2"⟩],
       method := some "fBm", param := none, number := 2, seed := none,
       label := some "lbl" }, ⟨0⟩, [])
    (by norm_num +decide [from_param, genTimes, cumsum, cumsumFrom, mkSList, seedRng])
    ⟨[2, 4, 6], [0, 0, 0], some "lbl surr #1"⟩ (List.mem_cons_self _ _)
